import Mathlib

/-!
Verification of the budget ledger / archival engine.

The repository contains two iterations of the same browser application:
* `src/unnamed/part_000` — the complete engine (empty default category
  registry, payday-based archival into `archivedPeriods`,
  `lastArchivePeriodId` guard);
* `src/app.js` — the earlier iteration (default categories, no archive,
  but the `periodStartForDate` / `computeSavedRecords` reporting code).

Below, the data model and every operation the claims touch are embedded
as executable Lean definitions translated from the JavaScript source.
Amounts are modelled as rationals (JS numbers), DOM-supplied inputs
(field values, `prompt`/`confirm` results, fresh ids, the wall-clock)
are explicit parameters, and `localStorage` writes are surfaced as an
explicit Boolean in the return value where a claim is about persistence.
-/

/-! ## Period calculator (src/unnamed/part_000, `computePeriodIdForDate`) -/

/-- A calendar date as JavaScript exposes it: `getFullYear`, `getMonth`
(0-based) and `getDate` (1-based day of month). -/
structure JsDate where
  year : Int
  month : Int
  day : Nat
deriving DecidableEq, Repr

/-- Year/month normalisation performed by the JavaScript `Date`
constructor: `new Date(year, month, ...)` carries an out-of-range month
into the year, e.g. month `-1` becomes December of the previous year.
Floor division/modulus match the JS behaviour for every integer. -/
def normalizeYM (year month : Int) : Int × Int :=
  (year + month.fdiv 12, month.fmod 12)

/-- `String(n).padStart(2, '0')` for the month component: a single
(non-negative, single-digit) numeral gets a leading zero. -/
def pad2 (n : Int) : String :=
  if 0 ≤ n ∧ n < 10 then "0" ++ toString n else toString n

/-- The `"YYYY-MM"` rendering of a (0-based) normalised year/month pair,
as built in the last lines of `computePeriodIdForDate`:
`pidYear + '-' + String(periodStart.getMonth() + 1).padStart(2, '0')`. -/
def periodKey (ym : Int × Int) : String :=
  toString ym.1 ++ "-" ++ pad2 (ym.2 + 1)

/-- `computePeriodIdForDate(date, payday)` (src/unnamed/part_000,
lines 472-490): the period start is the `payday` day of the current
month when `date.getDate() >= payday`, of the previous month otherwise;
the result is the period start's `"YYYY-MM"` key.  For `payday ∈ [1,28]`
the constructed `Date` is valid, so its year/month are exactly the
normalised pair. -/
def computePeriodIdForDate (date : JsDate) (payday : Nat) : String :=
  let startYM :=
    if date.day ≥ payday then normalizeYM date.year date.month
    else normalizeYM date.year (date.month - 1)
  periodKey startYM

/-- C1: for a reference date with year `y`, 1-based month `m` and day `d`
and any payday `p ∈ [1,28]`, `computePeriodIdForDate` returns the
`"YYYY-MM"` key of `(y, m)` when `d ≥ p`, and of the previous month
(year decremented across the January boundary) when `d < p`. -/
theorem c1_period_id_correct (y : Int) (m d p : Nat)
    (hm1 : 1 ≤ m) (hm2 : m ≤ 12) (hp1 : 1 ≤ p) (hp2 : p ≤ 28) :
    computePeriodIdForDate ⟨y, (m : Int) - 1, d⟩ p =
      if p ≤ d then
        toString y ++ "-" ++ pad2 m
      else if m = 1 then
        toString (y - 1) ++ "-" ++ pad2 12
      else
        toString y ++ "-" ++ pad2 ((m : Int) - 1) := by
  unfold computePeriodIdForDate normalizeYM periodKey
  interval_cases m <;>
    by_cases h : p ≤ d <;>
      simp [h, ge_iff_le, Int.sub_eq_add_neg] <;> norm_num

/-- C1 witness: the spec's worked example, payday 5.
2025-08-03 (month index 7, day 3 < 5) falls in period `"2025-07"`, and
2025-08-05 falls in `"2025-08"`. -/
theorem c1_period_id_correct_witness :
    computePeriodIdForDate ⟨2025, 7, 3⟩ 5 = "2025-07" := by
  have h := c1_period_id_correct 2025 8 3 5 (by decide) (by decide) (by decide) (by decide)
  norm_num at h
  rw [h]
  decide

/-! ## Engine state (src/unnamed/part_000, `applicationState`) -/

/-- A transaction as built in `handleAddTransaction`:
`{ id, description, amount, category, date }`.  Amounts are JS numbers,
modelled as rationals; `date` is the ISO timestamp string. -/
structure Transaction where
  id : String
  description : String
  amount : ℚ
  category : String
  date : String
deriving DecidableEq, Repr

/-- An archive record as built in `archiveIfNeededAndPerformAutomatically`:
`{ id, label, dateArchived, budgetAtArchive, transactionsSnapshot,
categoriesSnapshot }`.  The JSON round-trip deep copies are plain values
here. -/
structure ArchiveEntry where
  id : String
  label : String
  dateArchived : String
  budgetAtArchive : ℚ
  transactionsSnapshot : List Transaction
  categoriesSnapshot : List String
deriving DecidableEq, Repr

/-- The persisted engine state (src/unnamed/part_000, lines 85-94). -/
structure ApplicationState where
  userName : String
  budgetAmount : ℚ
  transactions : List Transaction
  categories : List String
  themeName : String
  payday : Nat
  archivedPeriods : List ArchiveEntry
  lastArchivePeriodId : Option String
deriving DecidableEq, Repr

/-- The default state used on first run: empty registry, no archives
(src/unnamed/part_000, lines 85-94; the comment there reads
"NO defaults — user must add categories"). -/
def defaultApplicationState : ApplicationState :=
  { userName := ""
    budgetAmount := 0
    transactions := []
    categories := []
    themeName := "standard"
    payday := 1
    archivedPeriods := []
    lastArchivePeriodId := none }

/-- `loadApplicationState` (lines 101-113): when `localStorage` holds no
blob (or a corrupt one), the default state is kept; otherwise the parsed
blob is merged over the defaults (for a well-formed full blob the merge
is the blob itself). -/
def loadApplicationState (stored : Option ApplicationState) : ApplicationState :=
  match stored with
  | none => defaultApplicationState
  | some parsed => parsed

/-! ## Archival engine (src/unnamed/part_000, `archiveIfNeededAndPerformAutomatically`) -/

/-- One archival tick (lines 496-545).  The wall clock (`new Date()`),
the generated archive id suffix, the locale label and the ISO timestamp
are caller-supplied so the decision is deterministic.  Steps, exactly as
in the source: return unchanged unless today's day-of-month equals the
configured payday (`Number(payday) || 1`); return unchanged if the
current period id equals `lastArchivePeriodId`; otherwise append an
archive record snapshotting budget/transactions/categories, reset the
live budget to 0 and the transactions to `[]`, and record the period id. -/
def archiveTick (s : ApplicationState) (today : JsDate)
    (freshId label isoNow : String) : ApplicationState :=
  let configuredPayday := if s.payday = 0 then 1 else s.payday
  if today.day ≠ configuredPayday then s
  else
    let currentPeriodId := computePeriodIdForDate today configuredPayday
    if s.lastArchivePeriodId = some currentPeriodId then s
    else
      let archiveEntry : ArchiveEntry :=
        { id := "arch_" ++ freshId
          label := label
          dateArchived := isoNow
          budgetAtArchive := s.budgetAmount
          transactionsSnapshot := s.transactions
          categoriesSnapshot := s.categories }
      { s with
          archivedPeriods := s.archivedPeriods ++ [archiveEntry]
          budgetAmount := 0
          transactions := []
          lastArchivePeriodId := some currentPeriodId }

/-- C2: whenever a tick actually seals a period (day-of-month matches the
payday and the period id is not the last archived one), the archive list
grows by exactly one record whose snapshots equal the pre-seal live
budget, transactions and categories; `lastArchivePeriodId` becomes the
sealed period id; the live budget is reset to 0 and the live transaction
list to `[]`. -/
theorem c2_seal_atomicity (s : ApplicationState) (today : JsDate)
    (freshId label isoNow : String)
    (hp : 1 ≤ s.payday) (hp28 : s.payday ≤ 28)
    (hd : today.day = s.payday)
    (hnew : s.lastArchivePeriodId ≠ some (computePeriodIdForDate today s.payday)) :
    (archiveTick s today freshId label isoNow).archivedPeriods.length
        = s.archivedPeriods.length + 1
    ∧ (∃ e, (archiveTick s today freshId label isoNow).archivedPeriods
              = s.archivedPeriods ++ [e]
          ∧ e.budgetAtArchive = s.budgetAmount
          ∧ e.transactionsSnapshot = s.transactions
          ∧ e.categoriesSnapshot = s.categories)
    ∧ (archiveTick s today freshId label isoNow).lastArchivePeriodId
        = some (computePeriodIdForDate today s.payday)
    ∧ (archiveTick s today freshId label isoNow).budgetAmount = 0
    ∧ (archiveTick s today freshId label isoNow).transactions = [] := by
  have hpz : s.payday ≠ 0 := by omega
  unfold archiveTick
  simp [hpz, hd, hnew]

/-- C2 witness: a concrete seal.  State with payday 5, budget 120, one
transaction and one category, last archived period `"2025-07"`; ticking
on 2025-08-05 seals period `"2025-08"`. -/
theorem c2_seal_atomicity_witness :
    ((archiveTick
        { userName := "A", budgetAmount := 120,
          transactions := [⟨"tx_1", "Migros", 30, "Essen", "2025-08-02T10:00:00.000Z"⟩],
          categories := ["Essen"], themeName := "standard", payday := 5,
          archivedPeriods := [], lastArchivePeriodId := some "2025-07" }
        ⟨2025, 7, 5⟩ "abc1234" "August 2025" "2025-08-05T00:00:00.000Z").archivedPeriods.length = 1)
    ∧ ((archiveTick
        { userName := "A", budgetAmount := 120,
          transactions := [⟨"tx_1", "Migros", 30, "Essen", "2025-08-02T10:00:00.000Z"⟩],
          categories := ["Essen"], themeName := "standard", payday := 5,
          archivedPeriods := [], lastArchivePeriodId := some "2025-07" }
        ⟨2025, 7, 5⟩ "abc1234" "August 2025" "2025-08-05T00:00:00.000Z").transactions = []) := by
  have h := c2_seal_atomicity
    { userName := "A", budgetAmount := 120,
      transactions := [⟨"tx_1", "Migros", 30, "Essen", "2025-08-02T10:00:00.000Z"⟩],
      categories := ["Essen"], themeName := "standard", payday := 5,
      archivedPeriods := [], lastArchivePeriodId := some "2025-07" }
    ⟨2025, 7, 5⟩ "abc1234" "August 2025" "2025-08-05T00:00:00.000Z"
    (by decide) (by decide) (by decide) (by decide)
  exact ⟨h.1, h.2.2.2.2⟩

/-- C3: the archival tick is idempotent for a fixed `now`: running it a
second time with the same date (whatever fresh id/label/timestamp the
second run would generate) leaves the state exactly as after the first
run — in particular no second archive record is ever appended for a
period id that already equals `lastArchivePeriodId`. -/
theorem c3_tick_idempotent (s : ApplicationState) (today : JsDate)
    (i1 l1 t1 i2 l2 t2 : String) :
    archiveTick (archiveTick s today i1 l1 t1) today i2 l2 t2
      = archiveTick s today i1 l1 t1 := by
  unfold archiveTick
  by_cases hday : today.day ≠ (if s.payday = 0 then 1 else s.payday) <;>
    simp [hday] <;>
      by_cases hlast : s.lastArchivePeriodId
          = some (computePeriodIdForDate today (if s.payday = 0 then 1 else s.payday)) <;>
        simp [hlast, hday]

/-! ## Category registry and ledger operations (src/unnamed/part_000) -/

/-- `String.prototype.trim()`: strips leading and trailing whitespace.
Implemented over the character list so that concrete instances reduce
inside the kernel. -/
def jsTrim (s : String) : String :=
  ⟨((s.data.dropWhile Char.isWhitespace).reverse.dropWhile Char.isWhitespace).reverse⟩

/-- The category-rename handler wired in `wireEventHandlers`
(src/unnamed/part_000, lines 784-799).  Guarded by
`if (newName && newName.trim())`; on success every registry entry equal
to `oldName` is replaced by the trimmed new name and every transaction
referencing `oldName` is rewritten.  No presence or duplicate check is
performed. -/
def renameCategory (s : ApplicationState) (oldName rawNewName : String) :
    ApplicationState :=
  if rawNewName ≠ "" ∧ jsTrim rawNewName ≠ "" then
    let n := jsTrim rawNewName
    { s with
        categories := s.categories.map (fun c => if c = oldName then n else c)
        transactions := s.transactions.map
          (fun tx => if tx.category = oldName then { tx with category := n } else tx) }
  else s

/-- The category-delete handler wired in `wireEventHandlers`
(src/unnamed/part_000, lines 800-813; `deleteCategory` in src/app.js,
lines 341-352, is identical in effect): after the `confirm` dialog, the
name is removed from the registry and every transaction referencing it
is reassigned to the literal `"Sonstiges"`. -/
def deleteCategory (s : ApplicationState) (name : String) (confirmed : Bool) :
    ApplicationState :=
  if confirmed then
    { s with
        categories := s.categories.filter (fun c => c ≠ name)
        transactions := s.transactions.map
          (fun tx => if tx.category = name then { tx with category := "Sonstiges" } else tx) }
  else s

/-- `handleAddCategory` (src/unnamed/part_000, lines 644-655): trims the
input, rejects an empty or already-present name, otherwise appends. -/
def handleAddCategory (s : ApplicationState) (rawName : String) : ApplicationState :=
  let name := jsTrim rawName
  if name = "" then s
  else if name ∈ s.categories then s
  else { s with categories := s.categories ++ [name] }

/-- `handleAddTransaction` (src/unnamed/part_000, lines 660-697).  The
description, the parsed amount (`parseFloat`, `none` for `NaN`) and the
category select value are the form inputs; fresh id and ISO timestamp
are caller-supplied.  Validation, in source order: empty description,
`isNaN(amount) || amount <= 0`, empty category value.  Note the category
is only checked for being nonempty — membership in the registry is not
checked here (the select only offers registry members in the UI). -/
def handleAddTransaction (s : ApplicationState) (rawDesc : String)
    (amount : Option ℚ) (category : String) (freshId isoNow : String) :
    ApplicationState :=
  let desc := jsTrim rawDesc
  if desc = "" then s
  else
    match amount with
    | none => s
    | some a =>
      if a ≤ 0 then s
      else if category = "" then s
      else { s with transactions :=
               s.transactions ++ [⟨freshId, desc, a, category, isoNow⟩] }

/-- `handleDeleteTransactionById` (src/unnamed/part_000, lines 717-726):
after the `confirm` dialog, the ledger is filtered to the transactions
whose id differs from the given one.  No check that the id was present. -/
def handleDeleteTransactionById (s : ApplicationState) (id : String)
    (confirmed : Bool) : ApplicationState :=
  if confirmed then
    { s with transactions := s.transactions.filter (fun t => t.id ≠ id) }
  else s

/-- C4: the rename cascade.  If `oldName` is registered and the new name
is nonempty, already trimmed and different from `oldName`, then after
`renameCategory` every transaction that referenced `oldName` now carries
`newName` (same id, description, amount and date), and no live
transaction references `oldName` any more. -/
theorem c4_rename_cascade (s : ApplicationState) (oldName newName : String)
    (hold : oldName ∈ s.categories)
    (htrim : jsTrim newName = newName) (hne : newName ≠ "")
    (hdiff : newName ≠ oldName) :
    (∀ tx ∈ s.transactions, tx.category = oldName →
        ({ tx with category := newName } : Transaction)
          ∈ (renameCategory s oldName newName).transactions)
    ∧ ∀ tx ∈ (renameCategory s oldName newName).transactions,
        tx.category ≠ oldName := by
  unfold renameCategory
  simp only [htrim, hne, ne_eq, not_false_iff, and_self, if_true]
  constructor
  · intro tx hmem hcat
    simp only [List.mem_map]
    exact ⟨tx, hmem, by simp [hcat]⟩
  · intro tx hmem
    simp only [List.mem_map] at hmem
    obtain ⟨tx0, _, rfl⟩ := hmem
    by_cases h0 : tx0.category = oldName <;> simp [h0, hdiff]

/-- C4 witness: renaming `"Essen"` to `"Food"` in a concrete state
rewrites the one affected transaction and leaves no reference behind. -/
theorem c4_rename_cascade_witness :
    ((⟨"tx_1", "Migros", 30, "Food", "2025-08-02"⟩ : Transaction)
        ∈ (renameCategory
            { userName := "", budgetAmount := 100,
              transactions := [⟨"tx_1", "Migros", 30, "Essen", "2025-08-02"⟩],
              categories := ["Essen", "Hobby"], themeName := "standard", payday := 1,
              archivedPeriods := [], lastArchivePeriodId := none }
            "Essen" "Food").transactions)
    ∧ ∀ tx ∈ (renameCategory
            { userName := "", budgetAmount := 100,
              transactions := [⟨"tx_1", "Migros", 30, "Essen", "2025-08-02"⟩],
              categories := ["Essen", "Hobby"], themeName := "standard", payday := 1,
              archivedPeriods := [], lastArchivePeriodId := none }
            "Essen" "Food").transactions, tx.category ≠ "Essen" := by
  have h := c4_rename_cascade
    { userName := "", budgetAmount := 100,
      transactions := [⟨"tx_1", "Migros", 30, "Essen", "2025-08-02"⟩],
      categories := ["Essen", "Hobby"], themeName := "standard", payday := 1,
      archivedPeriods := [], lastArchivePeriodId := none }
    "Essen" "Food" (by decide) (by decide) (by decide) (by decide)
  exact ⟨h.1 ⟨"tx_1", "Migros", 30, "Essen", "2025-08-02"⟩ (by decide) rfl, h.2⟩

/-- Referential integrity of the ledger: every live transaction's
category names an entry of the registry. -/
def categoriesConsistent (s : ApplicationState) : Prop :=
  ∀ tx ∈ s.transactions, tx.category ∈ s.categories

/-- C5 counterexample: deleting the only category `"Essen"` from a state
whose single transaction references it reassigns the transaction to the
literal `"Sonstiges"`, which is not in the (now empty) registry — so a
category operation does leave a transaction pointing at a name absent
from the registry. -/
theorem c5_counterexample :
    categoriesConsistent
      { userName := "", budgetAmount := 100,
        transactions := [⟨"tx_1", "Migros", 30, "Essen", "2025-08-02"⟩],
        categories := ["Essen"], themeName := "standard", payday := 1,
        archivedPeriods := [], lastArchivePeriodId := none }
    ∧ ¬ categoriesConsistent
        (deleteCategory
          { userName := "", budgetAmount := 100,
            transactions := [⟨"tx_1", "Migros", 30, "Essen", "2025-08-02"⟩],
            categories := ["Essen"], themeName := "standard", payday := 1,
            archivedPeriods := [], lastArchivePeriodId := none }
          "Essen" true) := by
  constructor
  · intro tx htx
    simp at htx
    simp [htx]
  · intro h
    have := h ⟨"tx_1", "Migros", 30, "Sonstiges", "2025-08-02"⟩ (by decide)
    simp [deleteCategory] at this

/-- C5 (amended): creating a category and renaming one preserve the
referential invariant, but `deleteCategory` only guarantees the weaker
property that afterwards every transaction's category is either still in
the registry or equal to the unregistered fallback literal
`"Sonstiges"` — the full invariant fails exactly when `"Sonstiges"` is
not (or no longer) in the registry. -/
theorem c5_referential_integrity_amended :
    (∀ (s : ApplicationState) (name : String),
      categoriesConsistent s → categoriesConsistent (handleAddCategory s name))
    ∧ (∀ (s : ApplicationState) (oldName newName : String),
      categoriesConsistent s → categoriesConsistent (renameCategory s oldName newName))
    ∧ (∀ (s : ApplicationState) (name : String) (confirmed : Bool),
      categoriesConsistent s →
        ∀ tx ∈ (deleteCategory s name confirmed).transactions,
          tx.category ∈ (deleteCategory s name confirmed).categories
          ∨ tx.category = "Sonstiges") := by
  refine ⟨?_, ?_, ?_⟩
  · intro s name hs tx htx
    unfold handleAddCategory at htx ⊢
    by_cases h1 : jsTrim name = "" <;> simp [h1] at htx ⊢
    · exact hs tx htx
    · by_cases h2 : jsTrim name ∈ s.categories <;> simp [h2] at htx ⊢
      · exact hs tx htx
      · exact Or.inl (hs tx htx)
  · intro s oldName newName hs tx htx
    unfold renameCategory at htx ⊢
    by_cases hg : newName ≠ "" ∧ jsTrim newName ≠ ""
    · rw [if_pos hg] at htx ⊢
      simp only [List.mem_map] at htx ⊢
      obtain ⟨tx0, htx0, rfl⟩ := htx
      by_cases hc : tx0.category = oldName
      · exact ⟨oldName, by rw [← hc]; exact hs tx0 htx0, by simp [hc]⟩
      · exact ⟨tx0.category, hs tx0 htx0, by simp [hc]⟩
    · rw [if_neg hg] at htx ⊢
      exact hs tx htx
  · intro s name confirmed hs tx htx
    unfold deleteCategory at htx ⊢
    by_cases hc : confirmed <;> simp only [hc, if_true, if_false] at htx ⊢
    · simp only [List.mem_map] at htx
      obtain ⟨tx0, htx0, rfl⟩ := htx
      by_cases h0 : tx0.category = name
      · right
        simp [h0]
      · left
        simp only [h0, if_false, List.mem_filter]
        exact ⟨hs tx0 htx0, by simpa using h0⟩
    · exact Or.inl (hs tx htx)

/-- C5 amended witness: the delete clause of the amended statement,
applied to a concrete consistent state: after deleting `"Essen"` the
affected transaction carries `"Sonstiges"` (the weak disjunction holds,
the right disjunct). -/
theorem c5_referential_integrity_amended_witness :
    ∀ tx ∈ (deleteCategory
        { userName := "", budgetAmount := 50,
          transactions := [⟨"tx_9", "Kiosk", 5, "Essen", "2025-09-01"⟩],
          categories := ["Essen"], themeName := "standard", payday := 1,
          archivedPeriods := [], lastArchivePeriodId := none }
        "Essen" true).transactions,
      tx.category ∈ (deleteCategory
        { userName := "", budgetAmount := 50,
          transactions := [⟨"tx_9", "Kiosk", 5, "Essen", "2025-09-01"⟩],
          categories := ["Essen"], themeName := "standard", payday := 1,
          archivedPeriods := [], lastArchivePeriodId := none }
        "Essen" true).categories
      ∨ tx.category = "Sonstiges" := by
  refine c5_referential_integrity_amended.2.2
    { userName := "", budgetAmount := 50,
      transactions := [⟨"tx_9", "Kiosk", 5, "Essen", "2025-09-01"⟩],
      categories := ["Essen"], themeName := "standard", payday := 1,
      archivedPeriods := [], lastArchivePeriodId := none }
    "Essen" true ?_
  intro tx htx
  simp at htx
  simp [htx]

/-- C6 counterexample: with registry `["Essen"]`, adding a transaction
whose category string is `"Geist"` — nonempty but not a registry member
— is *not* rejected: the transaction is appended.  The code only checks
that description, amount and category value are nonempty/valid; registry
membership is never consulted. -/
theorem c6_counterexample :
    ("Geist" ∉
      ({ userName := "", budgetAmount := 100,
         transactions := [], categories := ["Essen"], themeName := "standard",
         payday := 1, archivedPeriods := [],
         lastArchivePeriodId := none } : ApplicationState).categories)
    ∧ (handleAddTransaction
        { userName := "", budgetAmount := 100,
          transactions := [], categories := ["Essen"], themeName := "standard",
          payday := 1, archivedPeriods := [], lastArchivePeriodId := none }
        "Coffee" (some 5) "Geist" "tx_abc" "2025-08-03").transactions
      = [⟨"tx_abc", "Coffee", 5, "Geist", "2025-08-03"⟩] := by
  constructor
  · decide
  · decide

/-- C6 (amended): `handleAddTransaction` rejects the call — leaving the
state unchanged — exactly when the trimmed description is empty, the
parsed amount is `NaN` or not positive, or the category value is the
empty string; registry membership of a nonempty category is not checked
(in the UI the category select only offers registry members and is
disabled when the registry is empty, so an empty registry yields the
empty category value, which is rejected).  With valid inputs the
transaction is appended even when the category is not registered. -/
theorem c6_add_transaction_amended :
    (∀ (s : ApplicationState) (rawDesc : String) (amount : Option ℚ)
        (freshId isoNow : String),
      handleAddTransaction s rawDesc amount "" freshId isoNow = s)
    ∧ (∀ (s : ApplicationState) (rawDesc : String) (a : ℚ)
        (category freshId isoNow : String),
      jsTrim rawDesc ≠ "" → 0 < a → category ≠ "" →
        (handleAddTransaction s rawDesc (some a) category freshId isoNow).transactions
          = s.transactions ++ [⟨freshId, jsTrim rawDesc, a, category, isoNow⟩]) := by
  constructor
  · intro s rawDesc amount freshId isoNow
    unfold handleAddTransaction
    by_cases h1 : jsTrim rawDesc = "" <;> simp [h1]
    cases amount with
    | none => rfl
    | some a => by_cases h2 : a ≤ 0 <;> simp [h2]
  · intro s rawDesc a category freshId isoNow h1 h2 h3
    unfold handleAddTransaction
    simp [h1, h3, not_le.mpr h2]

/-- C6 amended witness: empty category value rejected on a concrete
state; a positive amount with nonempty description and category
appended. -/
theorem c6_add_transaction_amended_witness :
    (handleAddTransaction defaultApplicationState "Kaffee" (some 4) "" "tx_1" "2025-08-03"
      = defaultApplicationState)
    ∧ (handleAddTransaction defaultApplicationState "Kaffee" (some 4) "Essen" "tx_1" "2025-08-03").transactions
      = defaultApplicationState.transactions ++ [⟨"tx_1", "Kaffee", 4, "Essen", "2025-08-03"⟩] := by
  exact ⟨c6_add_transaction_amended.1 defaultApplicationState "Kaffee" (some 4) "tx_1" "2025-08-03",
    c6_add_transaction_amended.2 defaultApplicationState "Kaffee" 4 "Essen" "tx_1" "2025-08-03"
      (by decide) (by decide) (by decide)⟩

/-- C8 counterexample: deleting the same transaction id twice.  The
second call returns the state of the first call unchanged — a silent
no-op.  No `NotFound` failure exists anywhere in the code path
(`handleDeleteTransactionById` just filters the ledger). -/
theorem c8_counterexample :
    handleDeleteTransactionById
        (handleDeleteTransactionById
          { userName := "", budgetAmount := 100,
            transactions := [⟨"tx_1", "Migros", 30, "Essen", "2025-08-02"⟩],
            categories := ["Essen"], themeName := "standard", payday := 1,
            archivedPeriods := [], lastArchivePeriodId := none }
          "tx_1" true)
        "tx_1" true
      = handleDeleteTransactionById
          { userName := "", budgetAmount := 100,
            transactions := [⟨"tx_1", "Migros", 30, "Essen", "2025-08-02"⟩],
            categories := ["Essen"], themeName := "standard", payday := 1,
            archivedPeriods := [], lastArchivePeriodId := none }
          "tx_1" true := by
  decide

/-- C8 (amended): `handleDeleteTransactionById` removes exactly the
transactions carrying the given id: every transaction with that id is
gone afterwards and every transaction with a different id survives; when
no live transaction has the id — in particular on a second removal of
the same id — the call is a silent no-op returning the state unchanged,
with no `NotFound` failure signalled. -/
theorem c8_remove_amended (s : ApplicationState) (id : String) :
    ((∀ tx ∈ s.transactions, tx.id ≠ id) →
        handleDeleteTransactionById s id true = s)
    ∧ (∀ tx ∈ (handleDeleteTransactionById s id true).transactions, tx.id ≠ id)
    ∧ (∀ tx ∈ s.transactions, tx.id ≠ id →
        tx ∈ (handleDeleteTransactionById s id true).transactions) := by
  refine ⟨?_, ?_, ?_⟩
  · intro hall
    unfold handleDeleteTransactionById
    simp only [if_true]
    have : s.transactions.filter (fun t => t.id ≠ id) = s.transactions := by
      rw [List.filter_eq_self]
      intro a ha
      simpa using hall a ha
    rw [this]
  · intro tx htx
    unfold handleDeleteTransactionById at htx
    simp only [if_true] at htx
    simp only [List.mem_filter, decide_eq_true_eq] at htx
    exact htx.2
  · intro tx htx hne
    unfold handleDeleteTransactionById
    simp only [if_true]
    simp only [List.mem_filter, decide_eq_true_eq]
    exact ⟨htx, hne⟩

/-- C8 amended witness: in a two-transaction ledger, removing `"tx_2"`
leaves no transaction with that id, keeps `"tx_1"`, and a subsequent
removal of `"tx_2"` is the identity. -/
theorem c8_remove_amended_witness :
    (∀ tx ∈ (handleDeleteTransactionById
        { userName := "", budgetAmount := 100,
          transactions := [⟨"tx_1", "Migros", 30, "Essen", "2025-08-02"⟩,
                           ⟨"tx_2", "Kino", 15, "Hobby", "2025-08-03"⟩],
          categories := ["Essen", "Hobby"], themeName := "standard", payday := 1,
          archivedPeriods := [], lastArchivePeriodId := none }
        "tx_2" true).transactions, tx.id ≠ "tx_2")
    ∧ handleDeleteTransactionById
        { userName := "", budgetAmount := 100,
          transactions := [⟨"tx_1", "Migros", 30, "Essen", "2025-08-02"⟩],
          categories := ["Essen"], themeName := "standard", payday := 1,
          archivedPeriods := [], lastArchivePeriodId := none }
        "tx_9" true
      = { userName := "", budgetAmount := 100,
          transactions := [⟨"tx_1", "Migros", 30, "Essen", "2025-08-02"⟩],
          categories := ["Essen"], themeName := "standard", payday := 1,
          archivedPeriods := [], lastArchivePeriodId := none } := by
  constructor
  · exact (c8_remove_amended
      { userName := "", budgetAmount := 100,
        transactions := [⟨"tx_1", "Migros", 30, "Essen", "2025-08-02"⟩,
                         ⟨"tx_2", "Kino", 15, "Hobby", "2025-08-03"⟩],
        categories := ["Essen", "Hobby"], themeName := "standard", payday := 1,
        archivedPeriods := [], lastArchivePeriodId := none }
      "tx_2").2.1
  · exact (c8_remove_amended
      { userName := "", budgetAmount := 100,
        transactions := [⟨"tx_1", "Migros", 30, "Essen", "2025-08-02"⟩],
        categories := ["Essen"], themeName := "standard", payday := 1,
        archivedPeriods := [], lastArchivePeriodId := none }
      "tx_9").1 (by decide)

/-- Insertion step of a stable sort: place `x` before the first element
it compares `≤` to. -/
def insertLe (le : α → α → Bool) (x : α) : List α → List α
  | [] => [x]
  | y :: ys => if le x y then x :: y :: ys else y :: insertLe le x ys

/-- A stable sort by a comparator, modelling `Array.prototype.sort`
(which is required to be stable); structural so that concrete instances
reduce inside the kernel. -/
def jsSortBy (le : α → α → Bool) : List α → List α
  | [] => []
  | x :: xs => insertLe le x (jsSortBy le xs)

/-- The category values offered by the transaction form's select element
(`renderCategoryListAndSelects`, src/unnamed/part_000, lines 394-414):
with an empty registry the select is disabled and holds a single
placeholder option whose value is the empty string; otherwise it holds
the registry entries (`slice().sort()`, sorted for display). -/
def transactionCategoryOptions (s : ApplicationState) : List String :=
  if s.categories.isEmpty then [""]
  else jsSortBy (fun a b => a ≤ b) s.categories

/-- C9: on first run (no persisted blob) the loaded state has an empty
category registry, and no transaction can be recorded through the form
while the registry is empty: the only category value the (disabled)
select can supply is the empty string, and `handleAddTransaction`
rejects it, leaving the state unchanged. -/
theorem c9_first_run_empty_registry :
    (loadApplicationState none).categories = []
    ∧ ∀ c ∈ transactionCategoryOptions (loadApplicationState none),
        ∀ (rawDesc : String) (amount : Option ℚ) (freshId isoNow : String),
          handleAddTransaction (loadApplicationState none) rawDesc amount c freshId isoNow
            = loadApplicationState none := by
  constructor
  · rfl
  · intro c hc rawDesc amount freshId isoNow
    have hc0 : c = "" := by
      simpa [transactionCategoryOptions, loadApplicationState,
        defaultApplicationState] using hc
    subst hc0
    unfold handleAddTransaction
    by_cases h1 : jsTrim rawDesc = "" <;> simp [h1]
    cases amount with
    | none => rfl
    | some a => by_cases h2 : a ≤ 0 <;> simp [h2]

/-- C9 witness: on the first-run state, submitting the form with the
placeholder category value records nothing. -/
theorem c9_first_run_empty_registry_witness :
    handleAddTransaction (loadApplicationState none) "Kaffee" (some 4) "" "tx_1" "2025-08-03"
      = loadApplicationState none := by
  exact c9_first_run_empty_registry.2 "" (by decide) "Kaffee" (some 4) "tx_1" "2025-08-03"

/-! ## The earlier iteration (src/app.js): state, category edit, reporting

`src/app.js` keeps its state in `state = { name, budget, transactions,
categories, theme, payday, savedRecords }` (lines 29-37) and its
reporting code (`periodStartForDate`, `computeSavedRecords`) works on
full JavaScript `Date` values, so dates are modelled by days since the
Unix epoch plus milliseconds within the day, with the standard
Gregorian (proleptic) civil-calendar conversions.  All `Date`
comparisons in the source compare millisecond timestamps. -/

/-- Days since 1970-01-01 of the civil date `(y, m, d)` with 1-based
month; valid for any integer day offset `d`, matching the day
normalisation of the JavaScript `Date` constructor and `setDate`. -/
def daysFromCivil (y m d : Int) : Int :=
  let yAdj := y - (if m ≤ 2 then 1 else 0)
  let era := yAdj.fdiv 400
  let yoe := yAdj - era * 400
  let mp := if 2 < m then m - 3 else m + 9
  let doy := (153 * mp + 2).fdiv 5 + d - 1
  let doe := yoe * 365 + yoe.fdiv 4 - yoe.fdiv 100 + doy
  era * 146097 + doe - 719468

/-- Inverse of `daysFromCivil`: the civil `(year, month, day)` (1-based
month) of a day count since the epoch. -/
def civilFromDays (z : Int) : Int × Int × Int :=
  let z2 := z + 719468
  let era := z2.fdiv 146097
  let doe := z2 - era * 146097
  let yoe := (doe - doe.fdiv 1460 + doe.fdiv 36524 - doe.fdiv 146096).fdiv 365
  let y := yoe + era * 400
  let doy := doe - (365 * yoe + yoe.fdiv 4 - yoe.fdiv 100)
  let mp := (5 * doy + 2).fdiv 153
  let d := doy - (153 * mp + 2).fdiv 5 + 1
  let m := if mp < 10 then mp + 3 else mp - 9
  (y + (if m ≤ 2 then 1 else 0), m, d)

/-- A JavaScript `Date`: days since the epoch and milliseconds within
the day. -/
structure DateTime where
  ord : Int
  ms : Int
deriving DecidableEq, Repr

/-- `getFullYear()`. -/
def DateTime.getFullYear (t : DateTime) : Int := (civilFromDays t.ord).1

/-- `getMonth()` — 0-based, as in JavaScript. -/
def DateTime.getMonth (t : DateTime) : Int := (civilFromDays t.ord).2.1 - 1

/-- `getDate()` — 1-based day of month. -/
def DateTime.getDate (t : DateTime) : Int := (civilFromDays t.ord).2.2

/-- `getTime()` in milliseconds; `Date` comparison operators compare
this value. -/
def DateTime.toMs (t : DateTime) : Int := t.ord * 86400000 + t.ms

/-- `a <= b` on `Date` values. -/
def dateLE (a b : DateTime) : Bool := a.toMs ≤ b.toMs

/-- `new Date(year, month, day, ...)` with 0-based `month`: out-of-range
months carry into the year and out-of-range days into the month. -/
def mkDate (y m d ms : Int) : DateTime :=
  let mm := y * 12 + m
  ⟨daysFromCivil (mm.fdiv 12) (mm.fmod 12 + 1) d, ms⟩

/-- `t.setMonth(m)` (on a copy): year and day of month are kept. -/
def jsSetMonth (t : DateTime) (m : Int) : DateTime :=
  mkDate t.getFullYear m t.getDate t.ms

/-- `t.setDate(d)` (on a copy): year and month are kept; `0` rolls to
the previous month's last day. -/
def jsSetDate (t : DateTime) (d : Int) : DateTime :=
  mkDate t.getFullYear t.getMonth d t.ms

/-- A transaction of the earlier iteration (src/app.js line 32, field
`desc` instead of `description`); `new Date(t.date)`, the parsed ISO
timestamp, is the date value the reporting code uses. -/
structure TransactionV1 where
  id : String
  desc : String
  amount : ℚ
  category : String
  date : DateTime
deriving DecidableEq, Repr

/-- A saved-per-period record as produced by `computeSavedRecords`
(src/app.js lines 423-463): `{ label, start, end, saved }`; the `end`
field is called `stop` here because `end` is reserved in Lean. -/
structure SavedRecord where
  label : String
  start : DateTime
  stop : DateTime
  saved : ℚ
deriving DecidableEq, Repr

/-- The state of src/app.js (lines 29-37). -/
structure StateV1 where
  name : String
  budget : ℚ
  transactions : List TransactionV1
  categories : List String
  theme : String
  payday : Nat
  savedRecords : List SavedRecord
deriving DecidableEq, Repr

/-- `state.categories[idx] = n` for `idx = indexOf(oldName)`: replaces
the first occurrence. -/
def setFirst : List String → String → String → List String
  | [], _, _ => []
  | c :: cs, oldName, n =>
      if c = oldName then n :: cs else c :: setFirst cs oldName n

/-- `editCategory(oldName, newName)` (src/app.js, lines 324-339): trims
the new name and silently returns on an empty result; silently returns
when `oldName` is not in the registry (`indexOf === -1`); otherwise
overwrites the registry slot and rewrites every transaction referencing
`oldName`.  There is no duplicate check on `newName`. -/
def editCategory (s : StateV1) (oldName newName : String) : StateV1 :=
  let n := jsTrim newName
  if n = "" then s
  else if oldName ∈ s.categories then
    { s with
        categories := setFirst s.categories oldName n
        transactions := s.transactions.map
          (fun tx => if tx.category = oldName then { tx with category := n } else tx) }
  else s

/-- C7 counterexample: with registry `["A", "B"]`, renaming `"A"` to the
already-present distinct name `"B"` does not fail and does not leave the
registry unchanged: it yields the duplicated registry `["B", "B"]`.  (No
`DuplicateCategory` check exists in either iteration of the code; the
part_000 handler performs even fewer checks.) -/
theorem c7_counterexample :
    ("B" ∈ ({ name := "", budget := 0, transactions := [], categories := ["A", "B"],
              theme := "standard", payday := 1, savedRecords := [] } : StateV1).categories
      ∧ "B" ≠ "A")
    ∧ (editCategory
        { name := "", budget := 0, transactions := [], categories := ["A", "B"],
          theme := "standard", payday := 1, savedRecords := [] }
        "A" "B").categories
      = ["B", "B"] := by
  constructor
  · constructor
    · decide
    · decide
  · decide

/-- Replacing the first occurrence of a present element by a different
value changes the list. -/
theorem setFirst_ne_of_mem (l : List String) (oldName n : String)
    (hmem : oldName ∈ l) (hne : n ≠ oldName) : setFirst l oldName n ≠ l := by
  induction l with
  | nil => cases hmem
  | cons c cs ih =>
    unfold setFirst
    by_cases hc : c = oldName
    · subst hc
      simp only [if_true]
      intro h
      exact hne (by injection h)
    · simp only [hc, if_false]
      intro h
      have htail : setFirst cs oldName n = cs := by injection h
      rcases List.mem_cons.mp hmem with h1 | h2
      · exact hc h1.symm
      · exact ih h2 htail

/-- C7 (amended): `editCategory` silently returns without mutating
anything when `oldName` is absent from the registry (no typed `NotFound`
failure is ever signalled), and performs no duplicate check: whenever a
(trimmed, nonempty) `newName` differs from a registered `oldName`, the
rename proceeds and changes the registry — even when `newName` is
already present, in which case a duplicate registry entry is created
rather than the call failing with `DuplicateCategory`. -/
theorem c7_rename_failure_modes_amended (s : StateV1) (oldName newName : String) :
    (oldName ∉ s.categories → editCategory s oldName newName = s)
    ∧ (jsTrim newName = newName → newName ≠ "" → oldName ∈ s.categories →
        newName ≠ oldName →
        (editCategory s oldName newName).categories ≠ s.categories) := by
  constructor
  · intro habs
    unfold editCategory
    by_cases h1 : jsTrim newName = "" <;> simp [h1, habs]
  · intro htrim hne hmem hdiff
    unfold editCategory
    rw [htrim]
    simp only [hne, if_false, hmem, if_true]
    exact setFirst_ne_of_mem s.categories oldName newName hmem hdiff

/-- C7 amended witness: both failure-mode clauses at concrete inputs —
renaming an absent category is a silent no-op, and renaming `"A"` to the
present name `"B"` changes the registry. -/
theorem c7_rename_failure_modes_amended_witness :
    (editCategory
        { name := "", budget := 0, transactions := [], categories := ["C", "D"],
          theme := "standard", payday := 1, savedRecords := [] }
        "X" "Y"
      = { name := "", budget := 0, transactions := [], categories := ["C", "D"],
          theme := "standard", payday := 1, savedRecords := [] })
    ∧ (editCategory
        { name := "", budget := 0, transactions := [], categories := ["C", "D"],
          theme := "standard", payday := 1, savedRecords := [] }
        "C" "D").categories
      ≠ ({ name := "", budget := 0, transactions := [], categories := ["C", "D"],
           theme := "standard", payday := 1, savedRecords := [] } : StateV1).categories := by
  constructor
  · exact (c7_rename_failure_modes_amended
      { name := "", budget := 0, transactions := [], categories := ["C", "D"],
        theme := "standard", payday := 1, savedRecords := [] }
      "X" "Y").1 (by decide)
  · exact (c7_rename_failure_modes_amended
      { name := "", budget := 0, transactions := [], categories := ["C", "D"],
        theme := "standard", payday := 1, savedRecords := [] }
      "C" "D").2 (by decide) (by decide) (by decide) (by decide)

/-- `periodStartForDate(d, payday)` (src/app.js, lines 409-416): the
candidate start is the payday (`Number(payday) || 1`) of `d`'s month at
00:00; it is the period start when `d >= candidate`, otherwise the
candidate is shifted back one month. -/
def periodStartForDate (d : DateTime) (payday : Nat) : DateTime :=
  let day : Int := if payday = 0 then 1 else payday
  let candidate := mkDate d.getFullYear d.getMonth day 0
  if dateLE candidate d then candidate
  else jsSetMonth candidate (candidate.getMonth - 1)

/-- `toLocaleString('de-DE', { month: 'short' })` for a 0-based month. -/
def deMonthShort (m : Int) : String :=
  ["Jan.", "Feb.", "März", "Apr.", "Mai", "Juni",
   "Juli", "Aug.", "Sept.", "Okt.", "Nov.", "Dez."].getD m.toNat ""

/-- The period label built in `computeSavedRecords`:
`start.toLocaleString('de-DE', { month: 'short', year: 'numeric' })`. -/
def periodLabel (t : DateTime) : String :=
  deMonthShort t.getMonth ++ " " ++ toString t.getFullYear

/-- The `while (start <= now)` loop of `computeSavedRecords` (src/app.js,
lines 443-449): starting from the first transaction's period start, one
`(start, end, label)` entry per month until `start` moves past `now`;
each `end` is the next period start minus one day.  The fuel argument
only bounds the number of months the loop can span — the `start <= now`
guard is what stops the iteration, exactly as in the source. -/
def buildPeriods (now : DateTime) : DateTime → Nat → List (DateTime × DateTime × String)
  | _, 0 => []
  | start, fuel + 1 =>
    if dateLE start now then
      let next := jsSetMonth start (start.getMonth + 1)
      let stop := jsSetDate next (next.getDate - 1)
      (start, stop, periodLabel start) :: buildPeriods now next fuel
    else []

/-- `transactions.filter(t => d >= start && d <= end).reduce((s, t) => s
+ Number(t.amount || 0), 0)`: total spent in a closed date range. -/
def spentBetween (txs : List TransactionV1) (a b : DateTime) : ℚ :=
  (txs.filter (fun t => dateLE a t.date && dateLE t.date b)).foldl
    (fun acc t => acc + t.amount) 0

/-- `computeSavedRecords()` (src/app.js, lines 423-463), with the wall
clock (`new Date()`) as an explicit parameter.  Returns the state after
the call, the records the function returns, and whether `saveState()`
(a `localStorage` write) was performed.  With no transactions it
returns a single record for the current period and touches nothing;
otherwise it builds one record per period from the earliest
transaction's period to `now`, *assigns them to `state.savedRecords`*
and *persists the state* before returning them. -/
def computeSavedRecords (s : StateV1) (now : DateTime) :
    StateV1 × List SavedRecord × Bool :=
  let payday := if s.payday = 0 then 1 else s.payday
  match s.transactions with
  | [] =>
    let start := periodStartForDate now payday
    let next := jsSetMonth start (start.getMonth + 1)
    let stop := jsSetDate next (next.getDate - 1)
    let spent := spentBetween s.transactions start stop
    (s, [⟨periodLabel start, start, stop, s.budget - spent⟩], false)
  | t0 :: _ =>
    let txs := jsSortBy (fun a b => dateLE a.date b.date) s.transactions
    let start0 := periodStartForDate (txs.headD t0).date payday
    let fuel := ((now.getFullYear - start0.getFullYear).natAbs + 2) * 12
    let periods := buildPeriods now start0 fuel
    let records := periods.map
      (fun p => ⟨p.2.2, p.1, p.2.1, s.budget - spentBetween s.transactions p.1 p.2.1⟩)
    ({ s with savedRecords := records }, records, true)

/-- C10 counterexample: `computeSavedRecords` is not read-only.  On a
state with one transaction (2025-08-10) and empty `savedRecords`,
invoked on 2025-08-20, it performs a persistence write and overwrites
`state.savedRecords` with the computed records, so the engine state
after the call differs from the state before it. -/
theorem c10_counterexample :
    ((computeSavedRecords
        { name := "", budget := 100,
          transactions := [⟨"t_1", "Migros", 30, "Essen", ⟨daysFromCivil 2025 8 10, 0⟩⟩],
          categories := ["Essen"], theme := "standard", payday := 1,
          savedRecords := [] }
        ⟨daysFromCivil 2025 8 20, 0⟩).2.2 = true)
    ∧ (computeSavedRecords
        { name := "", budget := 100,
          transactions := [⟨"t_1", "Migros", 30, "Essen", ⟨daysFromCivil 2025 8 10, 0⟩⟩],
          categories := ["Essen"], theme := "standard", payday := 1,
          savedRecords := [] }
        ⟨daysFromCivil 2025 8 20, 0⟩).1.savedRecords
      ≠ ({ name := "", budget := 100,
           transactions := [⟨"t_1", "Migros", 30, "Essen", ⟨daysFromCivil 2025 8 10, 0⟩⟩],
           categories := ["Essen"], theme := "standard", payday := 1,
           savedRecords := [] } : StateV1).savedRecords := by
  constructor
  · rfl
  · decide

/-- C10 (amended): `computeSavedRecords` is read-only only in the
no-transactions case; with a nonempty ledger it performs a persistence
write and mutates exactly the `savedRecords` field of the engine state,
setting it to the records it returns (budget, transactions, categories,
payday and the rest are unchanged). -/
theorem c10_saved_records_amended (s : StateV1) (now : DateTime) :
    (s.transactions = [] →
      (computeSavedRecords s now).1 = s ∧ (computeSavedRecords s now).2.2 = false)
    ∧ (s.transactions ≠ [] →
      (computeSavedRecords s now).2.2 = true
      ∧ (computeSavedRecords s now).1
          = { s with savedRecords := (computeSavedRecords s now).2.1 }) := by
  constructor
  · intro h
    unfold computeSavedRecords
    rw [h]
    exact ⟨rfl, rfl⟩
  · intro h
    obtain ⟨t0, rest, hcons⟩ := List.exists_cons_of_ne_nil h
    unfold computeSavedRecords
    rw [hcons]
    exact ⟨rfl, rfl⟩

/-- C10 amended witness: the nonempty-ledger clause at a concrete input:
the call persists, and re-assembling the pre-state with the returned
records gives the post-state. -/
theorem c10_saved_records_amended_witness :
    (computeSavedRecords
        { name := "", budget := 80,
          transactions := [⟨"t_2", "Kino", 20, "Hobby", ⟨daysFromCivil 2025 9 3, 0⟩⟩],
          categories := ["Hobby"], theme := "standard", payday := 1,
          savedRecords := [] }
        ⟨daysFromCivil 2025 9 4, 0⟩).2.2 = true := by
  exact ((c10_saved_records_amended
    { name := "", budget := 80,
      transactions := [⟨"t_2", "Kino", 20, "Hobby", ⟨daysFromCivil 2025 9 3, 0⟩⟩],
      categories := ["Hobby"], theme := "standard", payday := 1,
      savedRecords := [] }
    ⟨daysFromCivil 2025 9 4, 0⟩).2 (by decide)).1
